import Mathlib

/-!
Verification of `lantern_pro.go` (package `lantern`, getlantern/lanternlib).

The file is a shallow embedding of the source:

* `SessionState` models the mutable `Session` interface: one field per
  getter, and each setter of the interface becomes a Lean function that
  updates the field and records an `Event` in an instrumentation `trace`
  (the trace captures the order and multiplicity of mutator invocations;
  it is not itself part of the Go object).
* Each Go handler (`newuser`, `purchase`, `plans`, `signin`, `redeemcode`,
  `requestcode`, `userdata`, `referral`, `cancel`) makes exactly one remote
  call through `proClient`; the outcome of that external call is an input
  to the embedded handler, a `RemoteOutcome`: the returned
  `*client.Response` as an `Option Response` (`none` models a nil
  pointer), and a `Bool` telling whether the returned `error` was non-nil.
* Go nil-pointer dereferences and nil-function invocations are modelled by
  returning `none` from the embedded function (a fault / runtime panic);
  a normal return is `some`.
* Remote-client operations that do not touch the session
  (`proClient.SetLocale`, building `r.user`, setting `r.user.Code`) have
  no session effect and so no session-level model; the outbound purchase
  payload, which claim-relevant state (the idempotency key) flows into,
  is modelled separately by `purchaseOutbound`.
-/

namespace Lantern

/-- Identity snapshot used in requests and returned inside responses
(`client.Auth`: DeviceID, ID, Token). -/
structure Auth where
  DeviceID : String
  ID : Int
  Token : String
deriving DecidableEq

/-- A linked device as it appears in a `fetch-user-data` response
(`client.Device`: Id, Name). -/
structure Device where
  Id : String
  Name : String
deriving DecidableEq

/-- The user payload of a response (`client.User`), with the fields the
source reads: Auth, Code, ExpireAt, Referral, Devices, UserStatus,
Expiration, Subscription, Email. -/
structure User where
  Auth : Auth
  Code : String
  ExpireAt : Int
  Referral : String
  Devices : List Device
  UserStatus : String
  Expiration : Int
  Subscription : String
  Email : String
deriving DecidableEq

/-- Plan duration (`client.Duration`); the source reads `Duration.Years`. -/
structure Duration where
  Years : Int
deriving DecidableEq

/-- A purchasable plan in a `list-plans` response (`client.Plan`).
`Price` is a Go `map[string]int` from currency to price; it is modelled
as an association list, and the arbitrary order in which Go iterates a
map is modelled by the list order (the loop in `plans` reads the first
iterated pair). -/
structure Plan where
  Id : String
  Description : String
  Price : List (String × Int)
  BestValue : Bool
  Duration : Duration
deriving DecidableEq

/-- A remote response (`client.Response`), with the fields the source
reads: Status, Error, User, Plans, PubKey. -/
structure Response where
  Status : String
  Error : String
  User : User
  Plans : List Plan
  PubKey : String
deriving DecidableEq

/-- Instrumentation events: one constructor per `Session` mutator, so the
trace records which mutators ran, with which arguments, in which order. -/
inductive Event where
  | setToken : String → Event
  | setUserId : Int → Event
  | setDeviceCode : String → Int → Event
  | userData : String → Int → String → String → Event
  | setCode : String → Event
  | setError : String → String → Event
  | setStripePubKey : String → Event
  | addPlan : String → String → String → Bool → Int → Int → Event
  | addDevice : String → String → Event
deriving DecidableEq

/-- A plan record as appended by `Session.AddPlan(id, description,
currency, bestValue, durationYears, price)`. -/
structure PlanRecord where
  id : String
  description : String
  currency : String
  bestValue : Bool
  years : Int
  price : Int
deriving DecidableEq

/-- State of a `Session` implementation: one field per getter of the Go
`Session` interface, a slot for the last recorded error, the lists grown
by `AddPlan` / `AddDevice`, and the instrumentation `trace`. -/
structure SessionState where
  userId : Int
  code : String
  verifyCode : String
  deviceCode : String
  deviceCodeExp : Int
  deviceId : String
  deviceName : String
  locale : String
  referral : String
  token : String
  plan : String
  stripeToken : String
  stripeApiKey : String
  email : String
  currency : String
  stripePubKey : String
  plansList : List PlanRecord
  devices : List (String × String)
  userStatus : String
  expiration : Int
  subscription : String
  errorSlot : Option (String × String)
  trace : List Event
deriving DecidableEq

/-- `Session.SetToken`. -/
def SetToken (s : SessionState) (t : String) : SessionState :=
  { s with token := t, trace := s.trace ++ [Event.setToken t] }

/-- `Session.SetUserId`. -/
def SetUserId (s : SessionState) (i : Int) : SessionState :=
  { s with userId := i, trace := s.trace ++ [Event.setUserId i] }

/-- `Session.SetDeviceCode(code, expiry)`. -/
def SetDeviceCode (s : SessionState) (c : String) (e : Int) : SessionState :=
  { s with deviceCode := c, deviceCodeExp := e,
           trace := s.trace ++ [Event.setDeviceCode c e] }

/-- `Session.UserData(status, expiration, subscription, email)`: the single
bulk user-data update. -/
def UserData (s : SessionState) (status : String) (exp : Int)
    (sub : String) (em : String) : SessionState :=
  { s with userStatus := status, expiration := exp, subscription := sub,
           email := em, trace := s.trace ++ [Event.userData status exp sub em] }

/-- `Session.SetCode` (the referral code written by `newuser`). -/
def SetCode (s : SessionState) (c : String) : SessionState :=
  { s with code := c, trace := s.trace ++ [Event.setCode c] }

/-- `Session.SetError(command, message)`: the error slot, last write wins. -/
def SetError (s : SessionState) (cmd msg : String) : SessionState :=
  { s with errorSlot := some (cmd, msg),
           trace := s.trace ++ [Event.setError cmd msg] }

/-- `Session.SetStripePubKey`. -/
def SetStripePubKey (s : SessionState) (k : String) : SessionState :=
  { s with stripePubKey := k, trace := s.trace ++ [Event.setStripePubKey k] }

/-- `Session.AddPlan(id, description, currency, bestValue, years, price)`. -/
def AddPlan (s : SessionState) (id desc cur : String) (bv : Bool)
    (years price : Int) : SessionState :=
  { s with plansList := s.plansList ++ [⟨id, desc, cur, bv, years, price⟩],
           trace := s.trace ++ [Event.addPlan id desc cur bv years price] }

/-- `Session.AddDevice(id, name)`. -/
def AddDevice (s : SessionState) (id name : String) : SessionState :=
  { s with devices := s.devices ++ [(id, name)],
           trace := s.trace ++ [Event.addDevice id name] }

/-- The session with the error slot and the instrumentation trace erased:
two sessions with equal `sansError` views differ at most in the error slot
(and in the trace). -/
def sansError (s : SessionState) : SessionState :=
  { s with errorSlot := none, trace := [] }

/-- Outcome of the one remote call a handler makes: the response pointer
(`none` = nil) and whether the returned Go `error` was non-nil. -/
abbrev RemoteOutcome := Option Response × Bool

/-- Type of an embedded handler (Go `proFunc`): given the outcome of its
remote call and the session, it either faults (`none`) or returns the
`(res, err)` pair it hands to the dispatcher together with the updated
session. -/
abbrev proFunc := RemoteOutcome → SessionState → Option (RemoteOutcome × SessionState)

/-- Handler `newuser`: on a non-nil error it only logs; otherwise it logs
`res.User...` (a fault if `res` is nil) and writes user id, token and
referral code, in that order, then returns `res, err` unchanged. -/
def newuser : proFunc := fun out s =>
  match out with
  | (res, true) => some ((res, true), s)
  | (none, false) => none
  | (some res, false) =>
      some ((some res, false),
        SetCode (SetToken (SetUserId s res.User.Auth.ID) res.User.Auth.Token)
          res.User.Referral)

/-- Handler `purchase`: builds the outbound purchase payload (modelled by
`purchaseOutbound`, which does not touch the session) and returns the
remote call's `res, err` unchanged; no session write. -/
def purchase : proFunc := fun out s => some (out, s)

/-- First pair yielded by iterating a plan's `Price` map, as read by the
`for currency, price = range plan.Price { break }` loop: the Go zero
values `("", 0)` when the map is empty, otherwise the first iterated
pair. -/
def pickFirstPrice : List (String × Int) → String × Int
  | [] => ("", 0)
  | p :: _ => p

/-- The `for _, plan := range res.Plans` loop of handler `plans`: for each
plan, pick one currency/price pair and call `AddPlan` when the picked
currency is non-empty. -/
def plansLoop (s : SessionState) : List Plan → SessionState
  | [] => s
  | p :: rest =>
      let cp := pickFirstPrice p.Price
      plansLoop
        (if cp.1 ≠ "" then
          AddPlan s p.Id p.Description cp.1 p.BestValue p.Duration.Years cp.2
        else s) rest

/-- Handler `plans`: returns early (no session write) on a non-nil error
or an empty plan list (`len(res.Plans)` faults if `res` is nil); otherwise
writes the Stripe public key and runs the plan loop. -/
def plans : proFunc := fun out s =>
  match out with
  | (res, true) => some ((res, true), s)
  | (none, false) => none
  | (some res, false) =>
      if res.Plans.length = 0 then some ((some res, false), s)
      else some ((some res, false),
        plansLoop (SetStripePubKey s res.PubKey) res.Plans)

/-- Handler `signin`: sets `r.user.Code` on the outbound request (no
session effect), logs on error, never dereferences `res`; no session
write. -/
def signin : proFunc := fun out s => some (out, s)

/-- Handler `redeemcode`: on a non-nil error, or a response whose status
is not "ok", it only logs (reading `res.Status` faults when `err` is nil
and `res` is nil; on a non-nil error the `||` short-circuits); on success
writes token then user id. -/
def redeemcode : proFunc := fun out s =>
  match out with
  | (res, true) => some ((res, true), s)
  | (none, false) => none
  | (some res, false) =>
      if res.Status ≠ "ok" then some ((some res, false), s)
      else some ((some res, false),
        SetUserId (SetToken s res.User.Auth.Token) res.User.Auth.ID)

/-- Handler `requestcode`: logs on error, otherwise writes the device code
and its expiry (reading `res.User.Code` faults if `res` is nil). -/
def requestcode : proFunc := fun out s =>
  match out with
  | (res, true) => some ((res, true), s)
  | (none, false) => none
  | (some res, false) =>
      some ((some res, false), SetDeviceCode s res.User.Code res.User.ExpireAt)

/-- The `for _, device := range res.User.Devices` loop of handler
`userdata`: one `AddDevice` per returned device, in response order. -/
def devicesLoop (s : SessionState) : List Device → SessionState
  | [] => s
  | d :: rest => devicesLoop (AddDevice s d.Id d.Name) rest

/-- Handler `userdata`: returns early on a non-nil error; otherwise
(logging `res.User` faults if `res` is nil) appends each returned device
and then applies the single bulk `UserData` update. -/
def userdata : proFunc := fun out s =>
  match out with
  | (res, true) => some ((res, true), s)
  | (none, false) => none
  | (some res, false) =>
      some ((some res, false),
        UserData (devicesLoop s res.User.Devices) res.User.UserStatus
          res.User.Expiration res.User.Subscription res.User.Email)

/-- Handler `referral`: one remote call, no session write, no `res`
dereference. -/
def referral : proFunc := fun out s => some (out, s)

/-- Handler `cancel`: one remote call, no session write, no `res`
dereference. -/
def cancel : proFunc := fun out s => some (out, s)

/-- The `commands` map literal built inside `ProRequest`, indexed at the
command name: a Go map access returning the zero value (`none`, i.e. a
nil `proFunc`) for an absent key. -/
def lookupHandler (command : String) : Option proFunc :=
  if command = "newuser" then some newuser
  else if command = "purchase" then some purchase
  else if command = "plans" then some plans
  else if command = "signin" then some signin
  else if command = "redeemcode" then some redeemcode
  else if command = "requestcode" then some requestcode
  else if command = "userdata" then some userdata
  else if command = "referral" then some referral
  else if command = "cancel" then some cancel
  else none

/-- Dispatcher `ProRequest(shouldProxy, command, session)`. `clientOk`
tells whether `proxied.GetHTTPClient` succeeded in `newRequest` (on
failure: return false, nothing else happens). `out` is the outcome of the
handler's remote call. `commands[command](req)` with an absent key calls
a nil function: a fault (`none`). After the handler, Go runs
`if err != nil || res.Status != "ok" { if res != nil { SetError }; return
false }; return true`: on a non-nil error the `||` short-circuits (no
`res.Status` dereference) and `SetError` runs only when `res` is non-nil;
with a nil error, reading `res.Status` faults when `res` is nil. -/
def ProRequest (clientOk : Bool) (command : String) (out : RemoteOutcome)
    (s : SessionState) : Option (Bool × SessionState) :=
  if clientOk = false then some (false, s)
  else
    match lookupHandler command with
    | none => none
    | some h =>
      match h out s with
      | none => none
      | some ((res, errFlag), s1) =>
        if errFlag then
          match res with
          | some r => some (false, SetError s1 command r.Error)
          | none => some (false, s1)
        else
          match res with
          | none => none
          | some r =>
            if r.Status = "ok" then some (true, s1)
            else some (false, SetError s1 command r.Error)

/-- `RemoveDevice(shouldProxy, deviceId, session)`: builds its own request
(returns false if the client cannot be built), calls
`proClient.UserLinkRemove` and tests `err != nil || res.Status != "ok"`.
The log statement inside the failure branch reads `res.Status`
unconditionally, so a non-nil error with a nil response faults (`none`).
The session is only read (by `newRequest`), never written. -/
def RemoveDevice (clientOk : Bool) (deviceId : String) (out : RemoteOutcome)
    (s : SessionState) : Option (Bool × SessionState) :=
  if clientOk = false then some (false, s)
  else
    match out with
    | (res, errFlag) =>
      if errFlag then
        match res with
        | none => none
        | some _ => some (false, s)
      else
        match res with
        | none => none
        | some r =>
          if r.Status = "ok" then some (true, s) else some (false, s)

/-- The outbound purchase payload (`client.Purchase`) built by handler
`purchase` from the session. -/
structure Purchase where
  IdempotencyKey : Nat
  StripeToken : String
  StripeEmail : String
  Plan : String
  Currency : String
deriving DecidableEq

/-- Modelled from the spec: `stripe.NewIdempotencyKey` (external stripe-go
library, not part of this repository) returns a freshly generated,
distinct key on every call within a process lifetime; modelled as drawing
the next key from a generator state threaded through the process. -/
def NewIdempotencyKey (gen : Nat) : Nat × Nat := (gen, gen + 1)

/-- The payload construction at the top of handler `purchase`: a fresh
idempotency key is generated on every call, then Stripe token, email,
plan and lower-cased currency are read from the session. Returns the
payload and the advanced generator state. -/
def purchaseOutbound (s : SessionState) (gen : Nat) : Purchase × Nat :=
  let k := NewIdempotencyKey gen
  (⟨k.1, s.stripeToken, s.email, s.plan, s.currency.toLower⟩, k.2)

/-- Declarative description of the single plan record the `plans` loop
appends for one plan: none when the price map is empty or the first
iterated pair has an empty currency key, otherwise the record built from
that pair. Stated from the spec's words, to be compared with `plansLoop`
(which is translated from the source). -/
def chosenRecord (p : Plan) : Option PlanRecord :=
  match p.Price with
  | [] => none
  | (c, pr) :: _ =>
      if c = "" then none
      else some ⟨p.Id, p.Description, c, p.BestValue, p.Duration.Years, pr⟩

/-- A user payload with every field at its zero value. -/
def u0 : User := ⟨⟨"", 0, ""⟩, "", 0, "", [], "", 0, "", ""⟩

/-- A session with every field at its zero value and an empty trace. -/
def s0 : SessionState :=
  ⟨0, "", "", "", 0, "", "", "", "", "", "", "", "", "", "", "", [], [], "", 0, "", none, []⟩

/-- A `newuser` response carrying fresh identity but a non-"ok" status. -/
def rBad : Response :=
  ⟨"failed", "errmsg", ⟨⟨"", 42, "tokT"⟩, "", 0, "R1", [], "", 0, "", ""⟩, [], ""⟩

/-- An "ok" response whose plan list is empty but whose `PubKey` is set. -/
def rNoPlans : Response := ⟨"ok", "", u0, [], "pk"⟩

/-- A response with status "failed", as in the remove-device scenario. -/
def rFailed : Response := ⟨"failed", "", u0, [], ""⟩

/-- An "ok" response, used for success-path witnesses. -/
def rOk : Response := ⟨"ok", "", u0, [], ""⟩

/-- An "ok" response carrying one plan with a single usd price entry. -/
def rOnePlan : Response :=
  ⟨"ok", "", u0, [⟨"p1", "desc", [("usd", 100)], false, ⟨1⟩⟩], "pk"⟩

lemma lookupHandler_cases (command : String) (h : proFunc)
    (hl : lookupHandler command = some h) :
    h = newuser ∨ h = purchase ∨ h = plans ∨ h = signin ∨ h = redeemcode ∨
      h = requestcode ∨ h = userdata ∨ h = referral ∨ h = cancel := by
  unfold lookupHandler at hl
  split_ifs at hl <;> simp_all

lemma handler_err (h : proFunc)
    (hmem : h = newuser ∨ h = purchase ∨ h = plans ∨ h = signin ∨
      h = redeemcode ∨ h = requestcode ∨ h = userdata ∨ h = referral ∨
      h = cancel)
    (res : Option Response) (s : SessionState) :
    h (res, true) s = some ((res, true), s) := by
  rcases hmem with rfl | rfl | rfl | rfl | rfl | rfl | rfl | rfl | rfl <;>
    cases res <;> rfl

lemma handler_ok_shape (h : proFunc)
    (hmem : h = newuser ∨ h = purchase ∨ h = plans ∨ h = signin ∨
      h = redeemcode ∨ h = requestcode ∨ h = userdata ∨ h = referral ∨
      h = cancel)
    (r : Response) (s : SessionState) :
    ∃ s', h (some r, false) s = some ((some r, false), s') := by
  rcases hmem with rfl | rfl | rfl | rfl | rfl | rfl | rfl | rfl | rfl
  · exact ⟨_, rfl⟩
  · exact ⟨_, rfl⟩
  · by_cases hp : r.Plans.length = 0
    · exact ⟨s, by simp [plans, hp]⟩
    · exact ⟨plansLoop (SetStripePubKey s r.PubKey) r.Plans, by simp [plans, hp]⟩
  · exact ⟨_, rfl⟩
  · by_cases hs : r.Status = "ok"
    · exact ⟨SetUserId (SetToken s r.User.Auth.Token) r.User.Auth.ID,
        by simp [redeemcode, hs]⟩
    · exact ⟨s, by simp [redeemcode, hs]⟩
  · exact ⟨_, rfl⟩
  · exact ⟨_, rfl⟩
  · exact ⟨_, rfl⟩
  · exact ⟨_, rfl⟩

lemma sansError_SetError (s : SessionState) (c m : String) :
    sansError (SetError s c m) = sansError s := by
  simp [sansError, SetError]

lemma devicesLoop_devices (ds : List Device) (s : SessionState) :
    (devicesLoop s ds).devices = s.devices ++ ds.map (fun d => (d.Id, d.Name)) := by
  induction ds generalizing s with
  | nil => simp [devicesLoop]
  | cons d rest ih => simp [devicesLoop, ih, AddDevice]

lemma devicesLoop_trace (ds : List Device) (s : SessionState) :
    (devicesLoop s ds).trace = s.trace ++ ds.map (fun d => Event.addDevice d.Id d.Name) := by
  induction ds generalizing s with
  | nil => simp [devicesLoop]
  | cons d rest ih => simp [devicesLoop, ih, AddDevice]

lemma plansLoop_plansList (ps : List Plan) (s : SessionState) :
    (plansLoop s ps).plansList = s.plansList ++ ps.filterMap chosenRecord := by
  induction ps generalizing s with
  | nil => simp [plansLoop]
  | cons p rest ih =>
    cases hp : p.Price with
    | nil => simp [plansLoop, pickFirstPrice, hp, ih, chosenRecord]
    | cons cp tail =>
      by_cases hc : cp.1 = ""
      · simp [plansLoop, pickFirstPrice, hp, hc, ih, chosenRecord]
      · simp [plansLoop, pickFirstPrice, hp, hc, ih, chosenRecord, AddPlan]

lemma plansLoop_stripePubKey (ps : List Plan) (s : SessionState) :
    (plansLoop s ps).stripePubKey = s.stripePubKey := by
  induction ps generalizing s with
  | nil => simp [plansLoop]
  | cons p rest ih =>
    by_cases hc : (pickFirstPrice p.Price).1 = "" <;>
      simp [plansLoop, hc, ih, AddPlan]

/-- C1: the claim states that `ProRequest` on a command name absent from
the registry returns false with no Session mutation and no fault. The
code instead indexes the `commands` map directly and invokes the zero
value — a nil `proFunc` — which is a nil-function fault: at the concrete
unknown name "bogus-command" the dispatch faults (`none`) instead of
returning false. -/
theorem c1_unknown_command_faults :
    ProRequest true "bogus-command" (none, false) s0 = none := rfl

/-- C2 counterexample: dispatching "newuser" with a remote outcome that
has no transport error but status "failed" ends in failure (returns
false), yet the handler's speculative write of the new token survives:
the final session's token is "tokT" while the initial token was empty.
This refutes the claim that no identity write survives a failed call. -/
theorem c2_counterexample :
    (ProRequest true "newuser" (some rBad, false) s0).map
        (fun p => (p.1, p.2.token)) = some (false, "tokT")
      ∧ s0.token = "" := ⟨rfl, rfl⟩

/-- C2 amended: identity-affecting fields (user id, token, referral code)
are written only by a handler whose remote call returned no error; when a
dispatch of a registered command fails because of a transport/remote
error, the call returns false, no write to those fields survives, and
only the error slot may be modified: the final session agrees with the
initial one outside the error slot (equal `sansError` views), and is
either literally the initial session or exactly the initial session with
the error slot set. (A dispatch that fails only because of a non-"ok"
status may leave handler writes in place, as the counterexample shows.) -/
theorem c2_amended_error_frame (command : String) (res : Option Response)
    (s : SessionState) (hc : (lookupHandler command).isSome) :
    ∃ s', ProRequest true command (res, true) s = some (false, s')
      ∧ s'.userId = s.userId ∧ s'.token = s.token ∧ s'.code = s.code
      ∧ sansError s' = sansError s
      ∧ (s' = s ∨ ∃ r, res = some r ∧ s' = SetError s command r.Error) := by
  obtain ⟨h, hl⟩ := Option.isSome_iff_exists.mp hc
  have hpass := handler_err h (lookupHandler_cases command h hl) res s
  cases res with
  | none =>
    exact ⟨s, by simp [ProRequest, hl, hpass], rfl, rfl, rfl, rfl, Or.inl rfl⟩
  | some r =>
    exact ⟨SetError s command r.Error, by simp [ProRequest, hl, hpass],
      rfl, rfl, rfl, sansError_SetError s command r.Error,
      Or.inr ⟨r, rfl, rfl⟩⟩

/-- Witness for the amended C2 at the concrete command "newuser" with a
pure transport failure and the zero session. -/
theorem c2_amended_witness :
    ∃ s', ProRequest true "newuser" (none, true) s0 = some (false, s')
      ∧ s'.userId = s0.userId ∧ s'.token = s0.token ∧ s'.code = s0.code
      ∧ sansError s' = sansError s0
      ∧ (s' = s0 ∨ ∃ r, (none : Option Response) = some r
          ∧ s' = SetError s0 "newuser" r.Error) :=
  c2_amended_error_frame "newuser" none s0 rfl

/-- C4: the redeem-link-code handler writes token and user id exactly
when the remote call returned no error and the response status is "ok";
in every other case (including a non-"ok" status with no error) the
session is returned unchanged. The extra conjuncts record that the
success write really stores the response's token and user id. -/
theorem c4_redeemcode_writes (res : Response) (errFlag : Bool) (s : SessionState) :
    redeemcode (some res, errFlag) s =
      some ((some res, errFlag),
        if errFlag = false ∧ res.Status = "ok" then
          SetUserId (SetToken s res.User.Auth.Token) res.User.Auth.ID
        else s)
    ∧ (SetUserId (SetToken s res.User.Auth.Token) res.User.Auth.ID).token
        = res.User.Auth.Token
    ∧ (SetUserId (SetToken s res.User.Auth.Token) res.User.Auth.ID).userId
        = res.User.Auth.ID := by
  refine ⟨?_, rfl, rfl⟩
  cases errFlag with
  | true => simp [redeemcode]
  | false => by_cases hs : res.Status = "ok" <;> simp [redeemcode, hs]

/-- C5: for every registered command, when the handler's remote call
returns a transport error the dispatch returns false and the session is
unchanged outside the error slot (the `sansError` views agree, and in
particular user id, token and referral code are untouched); the error
slot is written — to the command name and the response's error message —
only when a response object was returned. -/
theorem c5_transport_error_frame (command : String) (res : Option Response)
    (s : SessionState) (hc : (lookupHandler command).isSome) :
    ∃ s', ProRequest true command (res, true) s = some (false, s')
      ∧ sansError s' = sansError s
      ∧ s'.userId = s.userId ∧ s'.token = s.token ∧ s'.code = s.code
      ∧ s'.errorSlot = (match res with
          | some r => some (command, r.Error)
          | none => s.errorSlot) := by
  obtain ⟨h, hl⟩ := Option.isSome_iff_exists.mp hc
  have hpass := handler_err h (lookupHandler_cases command h hl) res s
  cases res with
  | none => exact ⟨s, by simp [ProRequest, hl, hpass], rfl, rfl, rfl, rfl, rfl⟩
  | some r =>
    exact ⟨SetError s command r.Error, by simp [ProRequest, hl, hpass],
      sansError_SetError s command r.Error, rfl, rfl, rfl, rfl⟩

/-- Witness for C5 at the concrete command "purchase", a transport error
alongside a returned response object, and the zero session. -/
theorem c5_witness :
    ∃ s', ProRequest true "purchase" (some rFailed, true) s0 = some (false, s')
      ∧ sansError s' = sansError s0
      ∧ s'.userId = s0.userId ∧ s'.token = s0.token ∧ s'.code = s0.code
      ∧ s'.errorSlot = some ("purchase", rFailed.Error) :=
  c5_transport_error_frame "purchase" (some rFailed) s0 rfl

/-- C7: on a fetch-user-data call whose remote call returned no error,
with N devices in the response, the handler appends exactly those N
devices in response order, and the trace shows the N `addDevice` events,
in order, all before the single bulk `userData` update. -/
theorem c7_userdata_order (r : Response) (s : SessionState) :
    ∃ s', userdata (some r, false) s = some ((some r, false), s')
      ∧ s'.devices = s.devices ++ r.User.Devices.map (fun d => (d.Id, d.Name))
      ∧ s'.trace = s.trace ++ r.User.Devices.map (fun d => Event.addDevice d.Id d.Name)
          ++ [Event.userData r.User.UserStatus r.User.Expiration
                r.User.Subscription r.User.Email] := by
  refine ⟨_, rfl, ?_, ?_⟩
  · simp [UserData, devicesLoop_devices]
  · simp [UserData, devicesLoop_trace]

/-- C9: two sequential purchase dispatches build outbound payloads with
distinct idempotency keys: the key is drawn freshly from the generator on
every call, so the second call's key differs from the first's whatever
the two sessions are. -/
theorem c9_idempotency_fresh (s1 s2 : SessionState) (gen : Nat) :
    (purchaseOutbound s1 gen).1.IdempotencyKey ≠
      (purchaseOutbound s2 (purchaseOutbound s1 gen).2).1.IdempotencyKey := by
  simp only [purchaseOutbound, NewIdempotencyKey]
  omega

/-- Witness for C9 at the zero session and generator state 0. -/
theorem c9_witness :
    (purchaseOutbound s0 0).1.IdempotencyKey ≠
      (purchaseOutbound s0 (purchaseOutbound s0 0).2).1.IdempotencyKey :=
  c9_idempotency_fresh s0 s0 0

/-- C10: for every registered command, when the handler returns a non-nil
error together with a nil response, the dispatcher's `err != nil ||
res.Status != "ok"` test short-circuits on the error, the nil response's
status field is never dereferenced, and since `res` is nil the error slot
is not written: the dispatch returns false with the session unchanged and
no fault. -/
theorem c10_error_short_circuit (command : String) (s : SessionState)
    (hc : (lookupHandler command).isSome) :
    ProRequest true command (none, true) s = some (false, s) := by
  obtain ⟨h, hl⟩ := Option.isSome_iff_exists.mp hc
  have hpass := handler_err h (lookupHandler_cases command h hl) none s
  simp [ProRequest, hl, hpass]

/-- Witness for C10 at the concrete command "signin" and the zero
session. -/
theorem c10_witness :
    ProRequest true "signin" (none, true) s0 = some (false, s0) :=
  c10_error_short_circuit "signin" s0 rfl

/-- C3: for every registered command, over the outcomes the claim's
failure taxonomy covers (a returned response, or a transport failure with
an error), the dispatch returns true exactly when the client was built,
the remote call returned no error, and the response status is "ok"; on a
failure with a returned response the error slot ends as (command name,
response error message); on a no-response failure (client construction
failure, or an error with a nil response) the dispatch returns false with
the session untouched. -/
theorem c3_dispatch_contract (clientOk : Bool) (command : String)
    (res : Option Response) (errFlag : Bool) (s : SessionState)
    (hc : (lookupHandler command).isSome)
    (ht : errFlag = true ∨ res.isSome) :
    ((∃ s', ProRequest clientOk command (res, errFlag) s = some (true, s')) ↔
        (clientOk = true ∧ errFlag = false ∧ ∃ r, res = some r ∧ r.Status = "ok"))
    ∧ (∀ r : Response, clientOk = true → res = some r →
        (errFlag = true ∨ r.Status ≠ "ok") →
        ∃ s', ProRequest clientOk command (res, errFlag) s = some (false, s')
          ∧ s'.errorSlot = some (command, r.Error))
    ∧ ((clientOk = false ∨ (res = none ∧ errFlag = true)) →
        ProRequest clientOk command (res, errFlag) s = some (false, s)) := by
  obtain ⟨h, hl⟩ := Option.isSome_iff_exists.mp hc
  have hcases := lookupHandler_cases command h hl
  cases clientOk with
  | false =>
    refine ⟨?_, ?_, ?_⟩
    · simp [ProRequest]
    · intro r hco; exact absurd hco (by simp)
    · intro _; simp [ProRequest]
  | true =>
    cases errFlag with
    | true =>
      have hpass := handler_err h hcases res s
      refine ⟨?_, ?_, ?_⟩
      · cases res with
        | none => simp [ProRequest, hl, hpass]
        | some r => simp [ProRequest, hl, hpass]
      · intro r _ hres _
        subst hres
        exact ⟨SetError s command r.Error, by simp [ProRequest, hl, hpass], rfl⟩
      · rintro (hco | ⟨hres, _⟩)
        · exact absurd hco (by simp)
        · subst hres; simp [ProRequest, hl, hpass]
    | false =>
      obtain ⟨r, hres⟩ := Option.isSome_iff_exists.mp (ht.resolve_left (by simp))
      subst hres
      obtain ⟨s1, hrun⟩ := handler_ok_shape h hcases r s
      refine ⟨?_, ?_, ?_⟩
      · by_cases hs : r.Status = "ok"
        · simp [ProRequest, hl, hrun, hs]
        · simp [ProRequest, hl, hrun, hs]
      · rintro r' _ hr' (hflag | hs)
        · exact absurd hflag (by simp)
        · injection hr' with h2
          subst h2
          exact ⟨SetError s1 command r.Error, by simp [ProRequest, hl, hrun, hs], rfl⟩
      · rintro (hco | ⟨hres', _⟩)
        · exact absurd hco (by simp)
        · exact absurd hres' (by simp)

/-- Witness for C3 at the concrete command "referral" with a returned
"ok" response: the success biconditional holds, the failure clause and
the no-response clause are vacuous at this input. -/
theorem c3_witness :
    ∃ s', ProRequest true "referral" (some rOk, false) s0 = some (true, s') :=
  (c3_dispatch_contract true "referral" (some rOk) false s0 rfl
      (Or.inr rfl)).1.mpr ⟨rfl, rfl, rOk, rfl, rfl⟩

/-- C6 counterexample: a list-plans dispatch with an "ok" response whose
plan list is empty succeeds (returns true) yet the handler's early return
on `len(res.Plans) == 0` skips `SetStripePubKey`: the session still has
an empty Stripe public key although the response carried "pk". This
refutes the claim that every successful list-plans call writes the Stripe
public key. -/
theorem c6_counterexample :
    ProRequest true "plans" (some rNoPlans, false) s0 = some (true, s0)
      ∧ rNoPlans.PubKey = "pk" ∧ s0.stripePubKey = "" := ⟨rfl, rfl, rfl⟩

/-- C6 amended: on a list-plans call whose remote call returned no error,
if the plan list is empty nothing is written (in particular no Stripe
public key); if it is non-empty the Stripe public key is written and, for
each plan, at most one record is appended — none when the plan's
currency/price map is empty or the arbitrarily picked (first-iterated)
pair has an empty currency key, and exactly the record built from that
pair otherwise (`chosenRecord`); the final plan list is the initial one
extended by those records in response order. -/
theorem c6_amended_plans (r : Response) (s : SessionState) :
    ∃ s', plans (some r, false) s = some ((some r, false), s')
      ∧ (r.Plans = [] → s' = s)
      ∧ (r.Plans ≠ [] → s'.stripePubKey = r.PubKey
          ∧ s'.plansList = s.plansList ++ r.Plans.filterMap chosenRecord)
      ∧ (∀ p : Plan, p.Price = [] → chosenRecord p = none) := by
  by_cases hp : r.Plans.length = 0
  · refine ⟨s, by simp [plans, hp], fun _ => rfl, fun hne => ?_,
      fun p hpp => by simp [chosenRecord, hpp]⟩
    exact absurd (List.length_eq_zero.mp hp) hne
  · refine ⟨plansLoop (SetStripePubKey s r.PubKey) r.Plans,
      by simp [plans, hp], fun h0 => ?_, fun _ => ⟨?_, ?_⟩,
      fun p hpp => by simp [chosenRecord, hpp]⟩
    · exact absurd (by simp [h0]) hp
    · rw [plansLoop_stripePubKey]; rfl
    · rw [plansLoop_plansList]; rfl

/-- Witness for the amended C6 at a concrete response holding one plan
with the single price entry ("usd", 100). -/
theorem c6_amended_witness :
    ∃ s', plans (some rOnePlan, false) s0 = some ((some rOnePlan, false), s')
      ∧ s'.stripePubKey = rOnePlan.PubKey
      ∧ s'.plansList = s0.plansList ++ rOnePlan.Plans.filterMap chosenRecord := by
  obtain ⟨s', h1, _, h3, _⟩ := c6_amended_plans rOnePlan s0
  obtain ⟨h4, h5⟩ := h3 (by simp [rOnePlan])
  exact ⟨s', h1, h4, h5⟩

/-- C8: `RemoveDevice` returns true exactly when the transport client was
built, the remote remove-device call returned no error, and the returned
response's status is "ok"; and whenever it returns at all, the session it
leaves behind is exactly the one it was given — it performs no session
write (no local device-list removal, no error-slot write). -/
theorem c8_removedevice (clientOk : Bool) (deviceId : String)
    (res : Option Response) (errFlag : Bool) (s : SessionState) :
    ((∃ s', RemoveDevice clientOk deviceId (res, errFlag) s = some (true, s')) ↔
        (clientOk = true ∧ errFlag = false ∧ ∃ r, res = some r ∧ r.Status = "ok"))
    ∧ (∀ b s', RemoveDevice clientOk deviceId (res, errFlag) s = some (b, s') →
        s' = s) := by
  cases clientOk with
  | false => simp [RemoveDevice]
  | true =>
    cases errFlag with
    | true =>
      cases res with
      | none => simp [RemoveDevice]
      | some r => simp [RemoveDevice]
    | false =>
      cases res with
      | none => simp [RemoveDevice]
      | some r => by_cases hs : r.Status = "ok" <;> simp [RemoveDevice, hs]

/-- Witness for C8 at the scenario input: device "d1", a returned
response with status "failed" and no error — the call does not return
true, and the session is left exactly as given. -/
theorem c8_witness :
    ¬ (∃ s', RemoveDevice true "d1" (some rFailed, false) s0 = some (true, s'))
      ∧ s0 = s0 := by
  have h := c8_removedevice true "d1" (some rFailed) false s0
  refine ⟨fun hx => ?_, h.2 false s0 rfl⟩
  obtain ⟨_, _, r, hr, hst⟩ := h.1.mp hx
  obtain rfl : r = rFailed := by injection hr with h2; exact h2.symm
  exact absurd hst (by simp [rFailed])

end Lantern
